import Mathlib

/-!
Verification development for the mshv x86_64 register marshalling layer
(mshv-bindings/src/x86_64/regs.rs): the segment register packing codec,
the LAPIC and XSAVE codecs, the VP state component directory, the
aligned buffer abstraction, and the feature gated MSR set builder.

Machine integers are modelled as Nat, reduced modulo 4294967296 where a
32 bit store occurs.  Byte buffers are modelled as functions from byte
offset to byte value.
-/

namespace Mshv

/-- Error code of libc EINVAL, carried by errno Error values in the source. -/
def EINVAL : Nat := 22

/-- Error code of libc ENOMEM, carried by errno Error values in the source. -/
def ENOMEM : Nat := 12

/-- Hypervisor page size, the crate root constant HV_PAGE_SIZE. -/
def HV_PAGE_SIZE : Nat := 4096

/-- Page shift, the bindings constant HV_HYP_PAGE_SHIFT. -/
def HV_HYP_PAGE_SHIFT : Nat := 12

/-- Store of a 32 bit value in little endian byte order at byte offset off.
Models a u32 store through a byte pointer cast in the source codecs. -/
def writeU32 (s : Nat → Nat) (off v : Nat) : Nat → Nat := fun i =>
  if i = off then v % 256
  else if i = off + 1 then v / 256 % 256
  else if i = off + 2 then v / 65536 % 256
  else if i = off + 3 then v / 16777216 % 256
  else s i

/-- Load of a 32 bit value in little endian byte order at byte offset off.
Models a u32 load through a byte pointer cast in the source codecs. -/
def readU32 (s : Nat → Nat) (off : Nat) : Nat :=
  s off % 256 + 256 * (s (off + 1) % 256) + 65536 * (s (off + 2) % 256)
    + 16777216 * (s (off + 3) % 256)

/-- APIC register file offset constants from the source. -/
@[simp] def LOCAL_APIC_OFFSET_APIC_ID : Nat := 0x20

@[simp] def LOCAL_APIC_OFFSET_VERSION : Nat := 0x30

@[simp] def LOCAL_APIC_OFFSET_TPR : Nat := 0x80

@[simp] def LOCAL_APIC_OFFSET_APR : Nat := 0x90

@[simp] def LOCAL_APIC_OFFSET_PPR : Nat := 0xA0

@[simp] def LOCAL_APIC_OFFSET_EOI : Nat := 0xB0

@[simp] def LOCAL_APIC_OFFSET_REMOTE_READ : Nat := 0xC0

@[simp] def LOCAL_APIC_OFFSET_LDR : Nat := 0xD0

@[simp] def LOCAL_APIC_OFFSET_DFR : Nat := 0xE0

@[simp] def LOCAL_APIC_OFFSET_SPURIOUS : Nat := 0xF0

@[simp] def LOCAL_APIC_OFFSET_ISR : Nat := 0x100

@[simp] def LOCAL_APIC_OFFSET_TMR : Nat := 0x180

@[simp] def LOCAL_APIC_OFFSET_IRR : Nat := 0x200

@[simp] def LOCAL_APIC_OFFSET_ERROR : Nat := 0x280

@[simp] def LOCAL_APIC_OFFSET_ICR_LOW : Nat := 0x300

@[simp] def LOCAL_APIC_OFFSET_ICR_HIGH : Nat := 0x310

@[simp] def LOCAL_APIC_OFFSET_TIMER_LVT : Nat := 0x320

@[simp] def LOCAL_APIC_OFFSET_THERMAL_LVT : Nat := 0x330

@[simp] def LOCAL_APIC_OFFSET_PERFMON_LVT : Nat := 0x340

@[simp] def LOCAL_APIC_OFFSET_LINT0_LVT : Nat := 0x350

@[simp] def LOCAL_APIC_OFFSET_LINT1_LVT : Nat := 0x360

@[simp] def LOCAL_APIC_OFFSET_ERROR_LVT : Nat := 0x370

@[simp] def LOCAL_APIC_OFFSET_INITIAL_COUNT : Nat := 0x380

@[simp] def LOCAL_APIC_OFFSET_CURRENT_COUNT : Nat := 0x390

@[simp] def LOCAL_APIC_OFFSET_DIVIDER : Nat := 0x3e0

@[simp] def LOCAL_X2APIC_OFFSET_SELF_IPI : Nat := 0x3f0

/-- Fuel bounded binary length of a Nat: number of bits needed. -/
def bitlenAux : Nat → Nat → Nat
  | 0, _ => 0
  | fuel + 1, v => if v = 0 then 0 else bitlenAux fuel (v / 2) + 1

/-- Model of the u32 leading_zeros intrinsic used by the PPR derivation. -/
def leading_zeros32 (v : Nat) : Nat := 32 - bitlenAux 32 v

/-- Modelled from the spec: the hypervisor LAPIC record
hv_local_interrupt_controller_state is declared in the generated
bindings module, which is not under src.  It carries named 32 bit
scalar fields and three 8 element vector arrays (ISR, TMR, IRR). -/
structure HvLICS where
  apic_id : Nat
  apic_version : Nat
  apic_ldr : Nat
  apic_dfr : Nat
  apic_spurious : Nat
  apic_isr : Fin 8 → Nat
  apic_tmr : Fin 8 → Nat
  apic_irr : Fin 8 → Nat
  apic_esr : Nat
  apic_icr_high : Nat
  apic_icr_low : Nat
  apic_lvt_timer : Nat
  apic_lvt_thermal : Nat
  apic_lvt_perfmon : Nat
  apic_lvt_lint0 : Nat
  apic_lvt_lint1 : Nat
  apic_lvt_error : Nat
  apic_lvt_cmci : Nat
  apic_error_status : Nat
  apic_initial_count : Nat
  apic_counter_value : Nat
  apic_divide_configuration : Nat
  apic_remote_read : Nat

attribute [ext] HvLICS

/-- Well formed record: every u32 field holds a 32 bit value. -/
def HvLICS.wf (r : HvLICS) : Prop :=
  r.apic_id < 4294967296 ∧ r.apic_version < 4294967296 ∧
  r.apic_ldr < 4294967296 ∧ r.apic_dfr < 4294967296 ∧
  r.apic_spurious < 4294967296 ∧
  (∀ i, r.apic_isr i < 4294967296) ∧
  (∀ i, r.apic_tmr i < 4294967296) ∧
  (∀ i, r.apic_irr i < 4294967296) ∧
  r.apic_esr < 4294967296 ∧ r.apic_icr_high < 4294967296 ∧
  r.apic_icr_low < 4294967296 ∧ r.apic_lvt_timer < 4294967296 ∧
  r.apic_lvt_thermal < 4294967296 ∧ r.apic_lvt_perfmon < 4294967296 ∧
  r.apic_lvt_lint0 < 4294967296 ∧ r.apic_lvt_lint1 < 4294967296 ∧
  r.apic_lvt_error < 4294967296 ∧ r.apic_initial_count < 4294967296 ∧
  r.apic_counter_value < 4294967296 ∧ r.apic_divide_configuration < 4294967296 ∧
  r.apic_remote_read < 4294967296

instance (r : HvLICS) : Decidable r.wf := by
  unfold HvLICS.wf
  infer_instance

/-- Modelled from the spec: byte size of the hypervisor LAPIC record, 44
u32 fields (20 scalars plus three 8 element arrays), 176 bytes.  Used by
the decode as size_of of hv_local_interrupt_controller_state. -/
def hv_lics_byte_size : Nat := 176

/-- Fixed 1024 byte register file buffer for LAPIC state; regs i is the
byte stored at offset i, zero initialised by Default. -/
structure LapicState where
  regs : Nat → Nat

/-- A raw aligned Buffer viewed through the LAPIC decode path: the source
reads it through a pointer cast to hv_local_interrupt_controller_state,
so the model carries the allocation size and the record the bytes hold. -/
structure LapicSrcBuffer where
  size : Nat
  state : HvLICS

/-- Descending scan order of the source loop for i in (0..8).rev(). -/
def descending8 : List (Fin 8) := [7, 6, 5, 4, 3, 2, 1, 0]

/-- Translation of the source loop computing isrv: the first nonzero ISR
word scanning indices descending yields 31 - leading_zeros plus
i * 4 * 8; if all eight words are zero the initial value 0 remains. -/
def isrvLoop (isr : Fin 8 → Nat) : List (Fin 8) → Nat
  | [] => 0
  | i :: rest =>
    if isr i ≠ 0 then 31 - leading_zeros32 (isr i) + i.val * 4 * 8
    else isrvLoop isr rest

/-- Value the decode stores in the PPR slot, from the source. -/
def lapicIsrv (isr : Fin 8 → Nat) : Nat := isrvLoop isr descending8

/-- Written from the specification text, for comparison with the source
derivation: scan the ISR array from index 7 down to 0; for the first
nonzero element v at index i the result is 31 - leading_zero_count v
plus i * 32; if all eight elements are zero the result is 0. -/
def pprSpecLoop (isr : Fin 8 → Nat) : List (Fin 8) → Nat
  | [] => 0
  | i :: rest =>
    if isr i ≠ 0 then 31 - leading_zeros32 (isr i) + i.val * 32
    else pprSpecLoop isr rest

/-- Spec side PPR derivation over the full descending index range. -/
def pprSpec (isr : Fin 8 → Nat) : Nat := pprSpecLoop isr [7, 6, 5, 4, 3, 2, 1, 0]

/-- The register file the LAPIC decode produces from a hypervisor
record: every scalar is written at its fixed offset, the three vector
arrays at base plus i * 16 (the source loop over i in 0..8 unrolled),
and finally the derived isrv value is written into the PPR slot.  The
writes start from the zeroed Default LapicState. -/
def lapic_decode_regs (r : HvLICS) : Nat → Nat :=
  let s : Nat → Nat := fun _ => 0
    let s := writeU32 s LOCAL_APIC_OFFSET_APIC_ID r.apic_id
    let s := writeU32 s LOCAL_APIC_OFFSET_VERSION r.apic_version
    let s := writeU32 s LOCAL_APIC_OFFSET_REMOTE_READ r.apic_remote_read
    let s := writeU32 s LOCAL_APIC_OFFSET_LDR r.apic_ldr
    let s := writeU32 s LOCAL_APIC_OFFSET_DFR r.apic_dfr
    let s := writeU32 s LOCAL_APIC_OFFSET_SPURIOUS r.apic_spurious
    let s := writeU32 s LOCAL_APIC_OFFSET_ERROR r.apic_esr
    let s := writeU32 s LOCAL_APIC_OFFSET_ICR_LOW r.apic_icr_low
    let s := writeU32 s LOCAL_APIC_OFFSET_ICR_HIGH r.apic_icr_high
    let s := writeU32 s LOCAL_APIC_OFFSET_TIMER_LVT r.apic_lvt_timer
    let s := writeU32 s LOCAL_APIC_OFFSET_THERMAL_LVT r.apic_lvt_thermal
    let s := writeU32 s LOCAL_APIC_OFFSET_PERFMON_LVT r.apic_lvt_perfmon
    let s := writeU32 s LOCAL_APIC_OFFSET_LINT0_LVT r.apic_lvt_lint0
    let s := writeU32 s LOCAL_APIC_OFFSET_LINT1_LVT r.apic_lvt_lint1
    let s := writeU32 s LOCAL_APIC_OFFSET_ERROR_LVT r.apic_lvt_error
    let s := writeU32 s LOCAL_APIC_OFFSET_INITIAL_COUNT r.apic_initial_count
    let s := writeU32 s LOCAL_APIC_OFFSET_CURRENT_COUNT r.apic_counter_value
    let s := writeU32 s LOCAL_APIC_OFFSET_DIVIDER r.apic_divide_configuration
    let s := writeU32 s (LOCAL_APIC_OFFSET_ISR + 0 * 16) (r.apic_isr 0)
    let s := writeU32 s (LOCAL_APIC_OFFSET_TMR + 0 * 16) (r.apic_tmr 0)
    let s := writeU32 s (LOCAL_APIC_OFFSET_IRR + 0 * 16) (r.apic_irr 0)
    let s := writeU32 s (LOCAL_APIC_OFFSET_ISR + 1 * 16) (r.apic_isr 1)
    let s := writeU32 s (LOCAL_APIC_OFFSET_TMR + 1 * 16) (r.apic_tmr 1)
    let s := writeU32 s (LOCAL_APIC_OFFSET_IRR + 1 * 16) (r.apic_irr 1)
    let s := writeU32 s (LOCAL_APIC_OFFSET_ISR + 2 * 16) (r.apic_isr 2)
    let s := writeU32 s (LOCAL_APIC_OFFSET_TMR + 2 * 16) (r.apic_tmr 2)
    let s := writeU32 s (LOCAL_APIC_OFFSET_IRR + 2 * 16) (r.apic_irr 2)
    let s := writeU32 s (LOCAL_APIC_OFFSET_ISR + 3 * 16) (r.apic_isr 3)
    let s := writeU32 s (LOCAL_APIC_OFFSET_TMR + 3 * 16) (r.apic_tmr 3)
    let s := writeU32 s (LOCAL_APIC_OFFSET_IRR + 3 * 16) (r.apic_irr 3)
    let s := writeU32 s (LOCAL_APIC_OFFSET_ISR + 4 * 16) (r.apic_isr 4)
    let s := writeU32 s (LOCAL_APIC_OFFSET_TMR + 4 * 16) (r.apic_tmr 4)
    let s := writeU32 s (LOCAL_APIC_OFFSET_IRR + 4 * 16) (r.apic_irr 4)
    let s := writeU32 s (LOCAL_APIC_OFFSET_ISR + 5 * 16) (r.apic_isr 5)
    let s := writeU32 s (LOCAL_APIC_OFFSET_TMR + 5 * 16) (r.apic_tmr 5)
    let s := writeU32 s (LOCAL_APIC_OFFSET_IRR + 5 * 16) (r.apic_irr 5)
    let s := writeU32 s (LOCAL_APIC_OFFSET_ISR + 6 * 16) (r.apic_isr 6)
    let s := writeU32 s (LOCAL_APIC_OFFSET_TMR + 6 * 16) (r.apic_tmr 6)
    let s := writeU32 s (LOCAL_APIC_OFFSET_IRR + 6 * 16) (r.apic_irr 6)
    let s := writeU32 s (LOCAL_APIC_OFFSET_ISR + 7 * 16) (r.apic_isr 7)
    let s := writeU32 s (LOCAL_APIC_OFFSET_TMR + 7 * 16) (r.apic_tmr 7)
    let s := writeU32 s (LOCAL_APIC_OFFSET_IRR + 7 * 16) (r.apic_irr 7)
    let s := writeU32 s LOCAL_APIC_OFFSET_PPR (lapicIsrv r.apic_isr)
    s

/-- Translation of TryFrom Buffer for LapicState: fail with EINVAL when
the buffer is smaller than the hypervisor record, before any write into
the register file; otherwise produce the decoded register file. -/
def lapic_try_from_buffer (buf : LapicSrcBuffer) : Except Nat LapicState :=
  if buf.size < hv_lics_byte_size then Except.error EINVAL
  else Except.ok ⟨lapic_decode_regs buf.state⟩

/-- Translation of TryFrom of a LapicState reference for Buffer: the hv
record the encode writes into its freshly allocated page rounded buffer.
Every field is read back from its fixed offset, the vector arrays at
base plus i * 16, and the two fields the register file does not carry,
apic_error_status and apic_lvt_cmci, are written as zero.  The only
failure path of the source conversion is buffer allocation, which is
orthogonal to the record content modelled here. -/
def lapic_to_hv_record (reg : LapicState) : HvLICS :=
  let state := reg.regs
  { apic_id := readU32 state LOCAL_APIC_OFFSET_APIC_ID
    apic_version := readU32 state LOCAL_APIC_OFFSET_VERSION
    apic_ldr := readU32 state LOCAL_APIC_OFFSET_LDR
    apic_dfr := readU32 state LOCAL_APIC_OFFSET_DFR
    apic_spurious := readU32 state LOCAL_APIC_OFFSET_SPURIOUS
    apic_isr := fun i => readU32 state (LOCAL_APIC_OFFSET_ISR + i.val * 16)
    apic_tmr := fun i => readU32 state (LOCAL_APIC_OFFSET_TMR + i.val * 16)
    apic_irr := fun i => readU32 state (LOCAL_APIC_OFFSET_IRR + i.val * 16)
    apic_esr := readU32 state LOCAL_APIC_OFFSET_ERROR
    apic_icr_high := readU32 state LOCAL_APIC_OFFSET_ICR_HIGH
    apic_icr_low := readU32 state LOCAL_APIC_OFFSET_ICR_LOW
    apic_lvt_timer := readU32 state LOCAL_APIC_OFFSET_TIMER_LVT
    apic_lvt_thermal := readU32 state LOCAL_APIC_OFFSET_THERMAL_LVT
    apic_lvt_perfmon := readU32 state LOCAL_APIC_OFFSET_PERFMON_LVT
    apic_lvt_lint0 := readU32 state LOCAL_APIC_OFFSET_LINT0_LVT
    apic_lvt_lint1 := readU32 state LOCAL_APIC_OFFSET_LINT1_LVT
    apic_lvt_error := readU32 state LOCAL_APIC_OFFSET_ERROR_LVT
    apic_lvt_cmci := 0
    apic_error_status := 0
    apic_initial_count := readU32 state LOCAL_APIC_OFFSET_INITIAL_COUNT
    apic_counter_value := readU32 state LOCAL_APIC_OFFSET_CURRENT_COUNT
    apic_divide_configuration := readU32 state LOCAL_APIC_OFFSET_DIVIDER
    apic_remote_read := readU32 state LOCAL_APIC_OFFSET_REMOTE_READ }

/-- Fixed 4096 byte opaque vector state buffer. -/
structure XSave where
  buffer : Nat → Nat

/-- Byte size of the XSave buffer field, size_of_val of the array. -/
def xsave_byte_size : Nat := 4096

/-- A raw aligned Buffer viewed as bytes: allocation size plus the byte
at each offset. -/
structure ByteBuffer where
  size : Nat
  data : Nat → Nat

/-- Translation of TryFrom Buffer for XSave: error with EINVAL when the
XSave array size is smaller than the buffer size, otherwise copy
buf.size bytes from the start of the buffer into the zero initialised
XSave array. -/
def xsave_try_from_buffer (buf : ByteBuffer) : Except Nat XSave :=
  if xsave_byte_size < buf.size then Except.error EINVAL
  else Except.ok ⟨fun i => if i < buf.size then buf.data i else 0⟩

/-- Whether an Except value is the ok constructor. -/
def isOkE (e : Except Nat XSave) : Bool :=
  match e with
  | Except.ok _ => true
  | Except.error _ => false

/-- MSR index constants from the source. -/
def IA32_MSR_TSC : Nat := 0x00000010

def IA32_MSR_EFER : Nat := 0xC0000080

def IA32_MSR_KERNEL_GS_BASE : Nat := 0xC0000102

def IA32_MSR_APIC_BASE : Nat := 0x0000001B

def IA32_MSR_PAT : Nat := 0x0277

def IA32_MSR_SYSENTER_CS : Nat := 0x00000174

def IA32_MSR_SYSENTER_ESP : Nat := 0x00000175

def IA32_MSR_SYSENTER_EIP : Nat := 0x00000176

def IA32_MSR_STAR : Nat := 0xC0000081

def IA32_MSR_LSTAR : Nat := 0xC0000082

def IA32_MSR_CSTAR : Nat := 0xC0000083

def IA32_MSR_SFMASK : Nat := 0xC0000084

def IA32_MSR_MTRR_CAP : Nat := 0x00FE

def IA32_MSR_MTRR_DEF_TYPE : Nat := 0x02FF

def IA32_MSR_MTRR_PHYSBASE0 : Nat := 0x0200

def IA32_MSR_MTRR_PHYSMASK0 : Nat := 0x0201

def IA32_MSR_MTRR_PHYSBASE1 : Nat := 0x0202

def IA32_MSR_MTRR_PHYSMASK1 : Nat := 0x0203

def IA32_MSR_MTRR_PHYSBASE2 : Nat := 0x0204

def IA32_MSR_MTRR_PHYSMASK2 : Nat := 0x0205

def IA32_MSR_MTRR_PHYSBASE3 : Nat := 0x0206

def IA32_MSR_MTRR_PHYSMASK3 : Nat := 0x0207

def IA32_MSR_MTRR_PHYSBASE4 : Nat := 0x0208

def IA32_MSR_MTRR_PHYSMASK4 : Nat := 0x0209

def IA32_MSR_MTRR_PHYSBASE5 : Nat := 0x020A

def IA32_MSR_MTRR_PHYSMASK5 : Nat := 0x020B

def IA32_MSR_MTRR_PHYSBASE6 : Nat := 0x020C

def IA32_MSR_MTRR_PHYSMASK6 : Nat := 0x020D

def IA32_MSR_MTRR_PHYSBASE7 : Nat := 0x020E

def IA32_MSR_MTRR_PHYSMASK7 : Nat := 0x020F

def IA32_MSR_MTRR_FIX64K_00000 : Nat := 0x0250

def IA32_MSR_MTRR_FIX16K_80000 : Nat := 0x0258

def IA32_MSR_MTRR_FIX16K_A0000 : Nat := 0x0259

def IA32_MSR_MTRR_FIX4K_C0000 : Nat := 0x0268

def IA32_MSR_MTRR_FIX4K_C8000 : Nat := 0x0269

def IA32_MSR_MTRR_FIX4K_D0000 : Nat := 0x026A

def IA32_MSR_MTRR_FIX4K_D8000 : Nat := 0x026B

def IA32_MSR_MTRR_FIX4K_E0000 : Nat := 0x026C

def IA32_MSR_MTRR_FIX4K_E8000 : Nat := 0x026D

def IA32_MSR_MTRR_FIX4K_F0000 : Nat := 0x026E

def IA32_MSR_MTRR_FIX4K_F8000 : Nat := 0x026F

def IA32_MSR_TSC_AUX : Nat := 0xC0000103

def IA32_MSR_BNDCFGS : Nat := 0x00000d90

def IA32_MSR_DEBUG_CTL : Nat := 0x1D9

def IA32_MSR_SPEC_CTRL : Nat := 0x00000048

def IA32_MSR_TSC_ADJUST : Nat := 0x0000003b

def IA32_MSR_MISC_ENABLE : Nat := 0x000001a0

def MSR_IA32_SSP : Nat := 0x000007a0

def MSR_IA32_U_CET : Nat := 0x000006a0

def MSR_IA32_S_CET : Nat := 0x000006a2

def MSR_IA32_PL0_SSP : Nat := 0x000006a4

def MSR_IA32_PL1_SSP : Nat := 0x000006a5

def MSR_IA32_PL2_SSP : Nat := 0x000006a6

def MSR_IA32_PL3_SSP : Nat := 0x000006a7

def MSR_IA32_INTERRUPT_SSP_TABLE_ADDR : Nat := 0x000006A8

def MSR_IA32_REGISTER_U_XSS : Nat := 0x8008B

/-- Modelled from the spec: synthetic MSR index constants come from the
generated bindings module, not under src; the numeric values are the
documented hypervisor values. -/
def HV_X64_MSR_GUEST_OS_ID : Nat := 0x40000000

def HV_X64_MSR_REFERENCE_TSC : Nat := 0x40000021

def HV_X64_MSR_SCONTROL : Nat := 0x40000080

def HV_X64_MSR_SIEFP : Nat := 0x40000082

def HV_X64_MSR_SIMP : Nat := 0x40000083

def HV_X64_MSR_EOM : Nat := 0x40000084

def HV_X64_MSR_SINT0 : Nat := 0x40000090

def HV_X64_MSR_SINT1 : Nat := 0x40000091

def HV_X64_MSR_SINT2 : Nat := 0x40000092

def HV_X64_MSR_SINT3 : Nat := 0x40000093

def HV_X64_MSR_SINT4 : Nat := 0x40000094

def HV_X64_MSR_SINT5 : Nat := 0x40000095

def HV_X64_MSR_SINT6 : Nat := 0x40000096

def HV_X64_MSR_SINT7 : Nat := 0x40000097

def HV_X64_MSR_SINT8 : Nat := 0x40000098

def HV_X64_MSR_SINT9 : Nat := 0x40000099

def HV_X64_MSR_SINT10 : Nat := 0x4000009A

def HV_X64_MSR_SINT11 : Nat := 0x4000009B

def HV_X64_MSR_SINT12 : Nat := 0x4000009C

def HV_X64_MSR_SINT13 : Nat := 0x4000009D

def HV_X64_MSR_SINT14 : Nat := 0x4000009E

def HV_X64_MSR_SINT15 : Nat := 0x4000009F

/-- SynIC MSR block, 19 entries, from the source static MSRS_SYNIC. -/
def MSRS_SYNIC : List Nat :=
  [HV_X64_MSR_SINT0, HV_X64_MSR_SINT1, HV_X64_MSR_SINT2, HV_X64_MSR_SINT3,
   HV_X64_MSR_SINT4, HV_X64_MSR_SINT5, HV_X64_MSR_SINT6, HV_X64_MSR_SINT7,
   HV_X64_MSR_SINT8, HV_X64_MSR_SINT9, HV_X64_MSR_SINT10, HV_X64_MSR_SINT11,
   HV_X64_MSR_SINT12, HV_X64_MSR_SINT13, HV_X64_MSR_SINT14, HV_X64_MSR_SINT15,
   HV_X64_MSR_SCONTROL, HV_X64_MSR_SIEFP, HV_X64_MSR_SIMP]

/-- Common MSR block, 42 entries, from the source static MSRS_COMMON. -/
def MSRS_COMMON : List Nat :=
  [IA32_MSR_TSC, IA32_MSR_EFER, IA32_MSR_KERNEL_GS_BASE, IA32_MSR_APIC_BASE,
   IA32_MSR_PAT, IA32_MSR_SYSENTER_CS, IA32_MSR_SYSENTER_ESP,
   IA32_MSR_SYSENTER_EIP, IA32_MSR_STAR, IA32_MSR_LSTAR, IA32_MSR_CSTAR,
   IA32_MSR_SFMASK, IA32_MSR_MTRR_DEF_TYPE, IA32_MSR_MTRR_PHYSBASE0,
   IA32_MSR_MTRR_PHYSMASK0, IA32_MSR_MTRR_PHYSBASE1, IA32_MSR_MTRR_PHYSMASK1,
   IA32_MSR_MTRR_PHYSBASE2, IA32_MSR_MTRR_PHYSMASK2, IA32_MSR_MTRR_PHYSBASE3,
   IA32_MSR_MTRR_PHYSMASK3, IA32_MSR_MTRR_PHYSBASE4, IA32_MSR_MTRR_PHYSMASK4,
   IA32_MSR_MTRR_PHYSBASE5, IA32_MSR_MTRR_PHYSMASK5, IA32_MSR_MTRR_PHYSBASE6,
   IA32_MSR_MTRR_PHYSMASK6, IA32_MSR_MTRR_PHYSBASE7, IA32_MSR_MTRR_PHYSMASK7,
   IA32_MSR_MTRR_FIX64K_00000, IA32_MSR_MTRR_FIX16K_80000,
   IA32_MSR_MTRR_FIX16K_A0000, IA32_MSR_MTRR_FIX4K_C0000,
   IA32_MSR_MTRR_FIX4K_C8000, IA32_MSR_MTRR_FIX4K_D0000,
   IA32_MSR_MTRR_FIX4K_D8000, IA32_MSR_MTRR_FIX4K_E0000,
   IA32_MSR_MTRR_FIX4K_E8000, IA32_MSR_MTRR_FIX4K_F0000,
   IA32_MSR_MTRR_FIX4K_F8000, IA32_MSR_DEBUG_CTL, HV_X64_MSR_EOM]

/-- CET shadow stack MSR block, 8 entries, from the source static
MSRS_CET_SS. -/
def MSRS_CET_SS : List Nat :=
  [MSR_IA32_U_CET, MSR_IA32_S_CET, MSR_IA32_SSP, MSR_IA32_PL0_SSP,
   MSR_IA32_PL1_SSP, MSR_IA32_PL2_SSP, MSR_IA32_PL3_SSP,
   MSR_IA32_INTERRUPT_SSP_TABLE_ADDR]

/-- Modelled from the spec: the union typed feature flag bundles come
from the generated bindings module, not under src; each bindgen accessor
extracts one bit, compared against 1 by the source, so every flag is
modelled as a Bool holding whether that bit is 1. -/
structure VpFeatures where
  cet_ss_support : Bool
  rdtscp_support : Bool
  xsave_supervisor_support : Bool
  access_synic_regs : Bool
  access_partition_reference_tsc : Bool
  access_hypercall_regs : Bool

/-- Translation of get_partition_supported_msrs: a growing vector,
seeded with the common block and extended by each feature gated block in
source order. -/
def get_partition_supported_msrs (features : VpFeatures) : List Nat :=
  let msrs : List Nat := []
  let msrs := msrs ++ MSRS_COMMON
  let msrs := if features.cet_ss_support then msrs ++ MSRS_CET_SS else msrs
  let msrs := if features.rdtscp_support then msrs ++ [IA32_MSR_TSC_AUX] else msrs
  let msrs :=
    if features.xsave_supervisor_support then msrs ++ [MSR_IA32_REGISTER_U_XSS] else msrs
  let msrs := if features.access_synic_regs then msrs ++ MSRS_SYNIC else msrs
  let msrs :=
    if features.access_partition_reference_tsc then msrs ++ [HV_X64_MSR_REFERENCE_TSC] else msrs
  let msrs :=
    if features.access_hypercall_regs then msrs ++ [HV_X64_MSR_GUEST_OS_ID] else msrs
  msrs

/-- Unpacked segment register with its descriptor attributes, from the
source SegmentRegister struct. -/
structure SegmentRegister where
  base : Nat
  limit : Nat
  selector : Nat
  type_ : Nat
  present : Nat
  dpl : Nat
  db : Nat
  s : Nat
  l : Nat
  g : Nat
  avl : Nat
  unusable : Nat
  padding : Nat

attribute [ext] SegmentRegister

/-- Packed hardware segment register: base, limit, selector and the 16
bit attribute word holding the descriptor bitfields. -/
structure hv_x64_segment_register where
  base : Nat
  limit : Nat
  selector : Nat
  attributes : Nat

attribute [ext] hv_x64_segment_register

/-- Modelled from the spec: bit positions of the bindgen generated
attribute accessors (bindings module, not under src), matching the
hypervisor segment descriptor layout: type bits 0-3, non system segment
bit 4, privilege level bits 5-6, present bit 7, reserved bits 8-11,
available bit 12, long bit 13, default bit 14, granularity bit 15. -/
def attr_segment_type (a : Nat) : Nat := a % 16

def attr_non_system_segment (a : Nat) : Nat := a / 16 % 2

def attr_descriptor_privilege_level (a : Nat) : Nat := a / 32 % 4

def attr_present (a : Nat) : Nat := a / 128 % 2

def attr_reserved (a : Nat) : Nat := a / 256 % 16

def attr_available (a : Nat) : Nat := a / 4096 % 2

def attr_long (a : Nat) : Nat := a / 8192 % 2

def attr_default (a : Nat) : Nat := a / 16384 % 2

def attr_granularity (a : Nat) : Nat := a / 32768 % 2

/-- Replace the width bits of word w starting at bit off by the low
width bits of v: the effect of one bindgen bitfield setter. -/
def setBits (w off width v : Nat) : Nat :=
  w % 2 ^ off + 2 ^ off * (v % 2 ^ width) + 2 ^ (off + width) * (w / 2 ^ (off + width))

/-- Translation of From of hv_x64_segment_register for SegmentRegister:
copy base, limit and selector, zero unusable and padding, and extract
each attribute from its bit position. -/
def SegmentRegister.from_hv (hv_reg : hv_x64_segment_register) : SegmentRegister :=
  { base := hv_reg.base
    limit := hv_reg.limit
    selector := hv_reg.selector
    type_ := attr_segment_type hv_reg.attributes
    present := attr_present hv_reg.attributes
    dpl := attr_descriptor_privilege_level hv_reg.attributes
    db := attr_default hv_reg.attributes
    s := attr_non_system_segment hv_reg.attributes
    l := attr_long hv_reg.attributes
    g := attr_granularity hv_reg.attributes
    avl := attr_available hv_reg.attributes
    unusable := 0
    padding := 0 }

/-- Translation of From of SegmentRegister for hv_x64_segment_register:
copy base, limit and selector, start from the Default zero attribute
word, and apply the eight bitfield setters in source order. -/
def hv_x64_segment_register.from_seg (reg : SegmentRegister) : hv_x64_segment_register :=
  let a := 0
  let a := setBits a 0 4 reg.type_
  let a := setBits a 7 1 reg.present
  let a := setBits a 5 2 reg.dpl
  let a := setBits a 14 1 reg.db
  let a := setBits a 4 1 reg.s
  let a := setBits a 13 1 reg.l
  let a := setBits a 15 1 reg.g
  let a := setBits a 12 1 reg.avl
  { base := reg.base
    limit := reg.limit
    selector := reg.selector
    attributes := a }

/-- Modelled from the spec: VP state component index constants from the
generated bindings module (not under src), in the documented order. -/
def MSHV_VP_STATE_LAPIC : Nat := 0

def MSHV_VP_STATE_XSAVE : Nat := 1

def MSHV_VP_STATE_SIMP : Nat := 2

def MSHV_VP_STATE_SIEFP : Nat := 3

def MSHV_VP_STATE_SYNTHETIC_TIMERS : Nat := 4

def MSHV_VP_STATE_COUNT : Nat := 5

/-- Byte size of the LapicState register file. -/
def lapic_state_byte_size : Nat := 1024

/-- Modelled from the spec: size_of of hv_synthetic_timers_state from
the bindings, 200 bytes per the component table in the source. -/
def hv_synthetic_timers_state_size : Nat := 200

/-- Translation of the const fn building the component size table: a
zeroed MSHV_VP_STATE_COUNT array with each component size assigned at
its index. -/
def VP_STATE_COMP_SIZES : List Nat :=
  (((((List.replicate MSHV_VP_STATE_COUNT 0).set
        MSHV_VP_STATE_LAPIC lapic_state_byte_size).set
        MSHV_VP_STATE_XSAVE xsave_byte_size).set
        MSHV_VP_STATE_SIMP HV_PAGE_SIZE).set
        MSHV_VP_STATE_SIEFP HV_PAGE_SIZE).set
        MSHV_VP_STATE_SYNTHETIC_TIMERS hv_synthetic_timers_state_size

/-- Translation of VP_STATE_COMPONENTS_BUFFER_SIZE: the sum of the five
component sizes looked up by index. -/
def VP_STATE_COMPONENTS_BUFFER_SIZE : Nat :=
  (VP_STATE_COMP_SIZES.getD MSHV_VP_STATE_LAPIC 0)
    + (VP_STATE_COMP_SIZES.getD MSHV_VP_STATE_XSAVE 0)
    + (VP_STATE_COMP_SIZES.getD MSHV_VP_STATE_SIMP 0)
    + (VP_STATE_COMP_SIZES.getD MSHV_VP_STATE_SIEFP 0)
    + (VP_STATE_COMP_SIZES.getD MSHV_VP_STATE_SYNTHETIC_TIMERS 0)

/-- Translation of get_vp_state_comp_start_offset: sum of the size table
entries before index. -/
def get_vp_state_comp_start_offset (index : Nat) : Nat :=
  (VP_STATE_COMP_SIZES.take index).sum

/-- Contiguous VP state components buffer; buffer i is the byte at
offset i of the VP_STATE_COMPONENTS_BUFFER_SIZE byte region. -/
structure AllVpStateComponents where
  buffer : Nat → Nat

/-- Translation of AllVpStateComponents copy_to_or_from_buffer.  The
source panics when the component length exceeds the external buffer
size, before copying anything; the panic is modelled as none, and the
updated pair of internal state and external buffer is returned
otherwise.  With to_buffer true, len bytes of the component are copied
to the front of the external buffer; with to_buffer false, len bytes of
the external buffer are copied over the component slice. -/
def AllVpStateComponents.copy_to_or_from_buffer (states : AllVpStateComponents)
    (index : Nat) (buffer : ByteBuffer) (to_buffer : Bool) :
    Option (AllVpStateComponents × ByteBuffer) :=
  let len := VP_STATE_COMP_SIZES.getD index 0
  if buffer.size < len then none
  else
    let start := get_vp_state_comp_start_offset index
    if to_buffer then
      some (states,
        { size := buffer.size
          data := fun i => if i < len then states.buffer (start + i) else buffer.data i })
    else
      some ({ buffer := fun j =>
                if start ≤ j ∧ j < start + len then buffer.data (j - start)
                else states.buffer j },
            buffer)

/-- Largest value of isize, the Rust layout size bound. -/
def isize_max : Nat := 9223372036854775807

/-- Whether a Nat is a power of two, the Rust is_power_of_two check. -/
def isPow2 (n : Nat) : Bool := n != 0 && (n &&& (n - 1)) == 0

/-- Translation of Layout from_size_align: some layout when align is a
nonzero power of two and size rounded up to align does not overflow
isize, none otherwise. -/
def layout_from_size_align (size align : Nat) : Option (Nat × Nat) :=
  if isPow2 align = true ∧ size ≤ isize_max - (align - 1) then some (size, align)
  else none

/-- Outcome of Buffer new: a buffer described by its layout size and
alignment, a recoverable errno error, or a fatal panic (the unwrap on an
invalid layout). -/
inductive BufferNewResult where
  | ok (size align : Nat)
  | err (code : Nat)
  | fatal
deriving DecidableEq

/-- Translation of Buffer new: build the layout, unwrap (panic when the
layout is invalid), call the global allocator, and map a null return to
an ENOMEM error.  Whether the host allocator fails is the external
nondeterminism, passed as alloc_fails. -/
def buffer_new (size align : Nat) (alloc_fails : Bool) : BufferNewResult :=
  match layout_from_size_align size align with
  | none => BufferNewResult.fatal
  | some (sz, al) =>
    if alloc_fails then BufferNewResult.err ENOMEM
    else BufferNewResult.ok sz al

/-- All zero hypervisor LAPIC record, used as a concrete input. -/
def hvZero : HvLICS :=
  { apic_id := 0, apic_version := 0, apic_ldr := 0, apic_dfr := 0
    apic_spurious := 0
    apic_isr := fun _ => 0, apic_tmr := fun _ => 0, apic_irr := fun _ => 0
    apic_esr := 0, apic_icr_high := 0, apic_icr_low := 0
    apic_lvt_timer := 0, apic_lvt_thermal := 0, apic_lvt_perfmon := 0
    apic_lvt_lint0 := 0, apic_lvt_lint1 := 0, apic_lvt_error := 0
    apic_lvt_cmci := 0, apic_error_status := 0
    apic_initial_count := 0, apic_counter_value := 0
    apic_divide_configuration := 0, apic_remote_read := 0 }

/-- Record whose ISR array is 0,0,0,0,0,0,0,4: the worked PPR example. -/
def hvIsrExample : HvLICS :=
  { hvZero with apic_isr := fun i => if i.val = 7 then 4 else 0 }

/-- Concrete unpacked segment register used as a witness input. -/
def segExample : SegmentRegister :=
  { base := 4096, limit := 65535, selector := 8, type_ := 11, present := 1
    dpl := 3, db := 0, s := 1, l := 1, g := 1, avl := 0, unusable := 0
    padding := 0 }

/-- Concrete packed segment register whose reserved bits are zero. -/
def hvSegExample : hv_x64_segment_register :=
  { base := 0, limit := 1048575, selector := 16, attributes := 0x50FB }

/-! Helper lemmas about the byte store. -/

theorem writeU32_out (s : Nat → Nat) (off v i : Nat)
    (h : i ≠ off ∧ i ≠ off + 1 ∧ i ≠ off + 2 ∧ i ≠ off + 3) :
    writeU32 s off v i = s i := by
  unfold writeU32
  rw [if_neg h.1, if_neg h.2.1, if_neg h.2.2.1, if_neg h.2.2.2]

theorem writeU32_self (s : Nat → Nat) (off v : Nat) :
    writeU32 s off v off = v % 256 := by
  unfold writeU32; rw [if_pos rfl]

theorem writeU32_p1 (s : Nat → Nat) (off v : Nat) :
    writeU32 s off v (off + 1) = v / 256 % 256 := by
  unfold writeU32; rw [if_neg (by omega), if_pos rfl]

theorem writeU32_p2 (s : Nat → Nat) (off v : Nat) :
    writeU32 s off v (off + 2) = v / 65536 % 256 := by
  unfold writeU32; rw [if_neg (by omega), if_neg (by omega), if_pos rfl]

theorem writeU32_p3 (s : Nat → Nat) (off v : Nat) :
    writeU32 s off v (off + 3) = v / 16777216 % 256 := by
  unfold writeU32
  rw [if_neg (by omega), if_neg (by omega), if_neg (by omega), if_pos rfl]

theorem readU32_writeU32_eq (s : Nat → Nat) (off v : Nat) :
    readU32 (writeU32 s off v) off = v % 4294967296 := by
  unfold readU32
  rw [writeU32_self, writeU32_p1, writeU32_p2, writeU32_p3]
  omega

theorem readU32_writeU32_ne (s : Nat → Nat) (off off' v : Nat)
    (h : off + 4 ≤ off' ∨ off' + 4 ≤ off) :
    readU32 (writeU32 s off' v) off = readU32 s off := by
  unfold readU32
  rw [writeU32_out s off' v off (by omega), writeU32_out s off' v (off + 1) (by omega),
      writeU32_out s off' v (off + 2) (by omega), writeU32_out s off' v (off + 3) (by omega)]

/-! Reduction of Fin 8 literal values, used after case analysis. -/

theorem fin8_val_0 : ((0 : Fin 8) : Nat) = 0 := rfl

theorem fin8_val_1 : ((1 : Fin 8) : Nat) = 1 := rfl

theorem fin8_val_2 : ((2 : Fin 8) : Nat) = 2 := rfl

theorem fin8_val_3 : ((3 : Fin 8) : Nat) = 3 := rfl

theorem fin8_val_4 : ((4 : Fin 8) : Nat) = 4 := rfl

theorem fin8_val_5 : ((5 : Fin 8) : Nat) = 5 := rfl

theorem fin8_val_6 : ((6 : Fin 8) : Nat) = 6 := rfl

theorem fin8_val_7 : ((7 : Fin 8) : Nat) = 7 := rfl

/-! Helper lemmas about the isrv scan. -/

theorem isrvLoop_le (isr : Fin 8 → Nat) (l : List (Fin 8)) :
    isrvLoop isr l ≤ 255 := by
  induction l with
  | nil => simp [isrvLoop]
  | cons i rest ih =>
    unfold isrvLoop
    split
    · have hval : i.val ≤ 7 := by omega
      have hsub : 31 - leading_zeros32 (isr i) ≤ 31 := Nat.sub_le _ _
      omega
    · exact ih

theorem isrvLoop_eq_pprSpecLoop (isr : Fin 8 → Nat) (l : List (Fin 8)) :
    isrvLoop isr l = pprSpecLoop isr l := by
  induction l with
  | nil => rfl
  | cons i rest ih =>
    unfold isrvLoop pprSpecLoop
    split
    · omega
    · exact ih

theorem lapicIsrv_eq_pprSpec (isr : Fin 8 → Nat) :
    lapicIsrv isr = pprSpec isr := by
  unfold lapicIsrv pprSpec descending8
  exact isrvLoop_eq_pprSpecLoop isr _

/-- C6: the VP state component buffer totals the sum of the five fixed
component sizes, 1024 + 4096 + 4096 + 4096 + 200 = 13512 bytes, and each
component starts at the sum of the sizes of the components before it:
LAPIC at 0, XSAVE at 1024, SIMP at 5120, SIEFP at 9216 and synthetic
timers at 13312. -/
theorem claim6_vp_state_layout :
    VP_STATE_COMPONENTS_BUFFER_SIZE = 13512 ∧
    VP_STATE_COMPONENTS_BUFFER_SIZE = 1024 + 4096 + 4096 + 4096 + 200 ∧
    get_vp_state_comp_start_offset MSHV_VP_STATE_LAPIC = 0 ∧
    get_vp_state_comp_start_offset MSHV_VP_STATE_XSAVE = 1024 ∧
    get_vp_state_comp_start_offset MSHV_VP_STATE_SIMP = 5120 ∧
    get_vp_state_comp_start_offset MSHV_VP_STATE_SIEFP = 9216 ∧
    get_vp_state_comp_start_offset MSHV_VP_STATE_SYNTHETIC_TIMERS = 13312 := by
  decide

/-- C5: for every component index and every external buffer smaller
than the size of that component, the copy transfers no bytes in either
direction: the call is rejected, modelled as the none outcome of the
panic, and no updated state or buffer is produced. -/
theorem claim5_copy_rejects_small_buffer (states : AllVpStateComponents)
    (index : Nat) (buffer : ByteBuffer) (to_buffer : Bool)
    (hidx : index < MSHV_VP_STATE_COUNT)
    (hsz : buffer.size < VP_STATE_COMP_SIZES.getD index 0) :
    states.copy_to_or_from_buffer index buffer to_buffer = none := by
  unfold AllVpStateComponents.copy_to_or_from_buffer
  rw [if_pos hsz]

theorem claim5_witness :
    0 < MSHV_VP_STATE_COUNT ∧
    (⟨16, fun _ => 0⟩ : ByteBuffer).size < VP_STATE_COMP_SIZES.getD 0 0 ∧
    AllVpStateComponents.copy_to_or_from_buffer ⟨fun _ => 0⟩ 0 ⟨16, fun _ => 0⟩ true
      = none :=
  ⟨by decide, by decide,
   claim5_copy_rejects_small_buffer ⟨fun _ => 0⟩ 0 ⟨16, fun _ => 0⟩ true
     (by decide) (by decide)⟩

/-- C7: LAPIC decoding of a buffer smaller than the hypervisor record
fails with EINVAL and produces no register file at all, and decoding of
any buffer at least that large succeeds. -/
theorem claim7_lapic_decode_size_check (buf : LapicSrcBuffer) :
    (buf.size < hv_lics_byte_size →
      lapic_try_from_buffer buf = Except.error EINVAL) ∧
    (hv_lics_byte_size ≤ buf.size →
      ∃ s, lapic_try_from_buffer buf = Except.ok s) := by
  constructor
  · intro h
    unfold lapic_try_from_buffer
    rw [if_pos h]
  · intro h
    unfold lapic_try_from_buffer
    rw [if_neg (by omega)]
    exact ⟨_, rfl⟩

theorem claim7_witness :
    ((⟨8, hvZero⟩ : LapicSrcBuffer).size < hv_lics_byte_size ∧
      lapic_try_from_buffer ⟨8, hvZero⟩ = Except.error EINVAL) ∧
    (hv_lics_byte_size ≤ (⟨1024, hvZero⟩ : LapicSrcBuffer).size ∧
      ∃ s, lapic_try_from_buffer ⟨1024, hvZero⟩ = Except.ok s) :=
  ⟨⟨by decide, (claim7_lapic_decode_size_check ⟨8, hvZero⟩).1 (by decide)⟩,
   ⟨by decide, (claim7_lapic_decode_size_check ⟨1024, hvZero⟩).2 (by decide)⟩⟩

/-- C8 counterexample: a 100 byte buffer is smaller than the 4096 bytes
the XSave structure holds, yet decoding it succeeds rather than failing
with a size mismatch error: the source check rejects only buffers larger
than the XSave array. -/
theorem claim8_cex :
    (⟨100, fun _ => 0⟩ : ByteBuffer).size < xsave_byte_size ∧
    isOkE (xsave_try_from_buffer ⟨100, fun _ => 0⟩) = true :=
  ⟨by decide, rfl⟩

/-- C8 amended: XSAVE decoding fails with the recoverable EINVAL error,
with no write into the XSave structure, exactly when the buffer is
larger than the 4096 byte XSave array; for a buffer of at most 4096
bytes it succeeds, copying the buffer bytes to the front of the zeroed
XSave array. -/
theorem claim8_xsave_decode_size_behavior (buf : ByteBuffer) :
    (xsave_byte_size < buf.size →
      xsave_try_from_buffer buf = Except.error EINVAL) ∧
    (buf.size ≤ xsave_byte_size →
      xsave_try_from_buffer buf =
        Except.ok ⟨fun i => if i < buf.size then buf.data i else 0⟩) := by
  constructor
  · intro h
    unfold xsave_try_from_buffer
    rw [if_pos h]
  · intro h
    unfold xsave_try_from_buffer
    rw [if_neg (by omega)]

theorem claim8_witness :
    ((⟨100, fun _ => 0⟩ : ByteBuffer).size ≤ xsave_byte_size ∧
      xsave_try_from_buffer ⟨100, fun _ => 0⟩ =
        Except.ok ⟨fun i => if i < (⟨100, fun _ => 0⟩ : ByteBuffer).size
          then (⟨100, fun _ => 0⟩ : ByteBuffer).data i else 0⟩) ∧
    (xsave_byte_size < (⟨8192, fun _ => 0⟩ : ByteBuffer).size ∧
      xsave_try_from_buffer ⟨8192, fun _ => 0⟩ = Except.error EINVAL) :=
  ⟨⟨by decide, (claim8_xsave_decode_size_behavior ⟨100, fun _ => 0⟩).2 (by decide)⟩,
   ⟨by decide, (claim8_xsave_decode_size_behavior ⟨8192, fun _ => 0⟩).1 (by decide)⟩⟩

/-- C9 counterexample: requesting alignment 3, which is not a power of
two, makes the layout construction fail and the unwrap panic, so the
allocation is neither a buffer nor a recoverable error: the fatal
outcome refutes the claim for arbitrary size and alignment. -/
theorem claim9_cex : buffer_new 1 3 false = BufferNewResult.fatal := by decide

/-- C9 amended: for every size and alignment accepted by the layout
constructor (alignment a nonzero power of two and size not overflowing
the isize bound), Buffer new either reports exactly the requested size
and alignment or fails with the recoverable ENOMEM error; the fatal
unwrap panic occurs only for size and alignment pairs the layout
constructor rejects. -/
theorem claim9_buffer_new_valid_layout (size align : Nat) (alloc_fails : Bool)
    (hpow : isPow2 align = true) (hsz : size ≤ isize_max - (align - 1)) :
    buffer_new size align alloc_fails = BufferNewResult.err ENOMEM ∨
    buffer_new size align alloc_fails = BufferNewResult.ok size align := by
  unfold buffer_new layout_from_size_align
  rw [if_pos ⟨hpow, hsz⟩]
  cases alloc_fails
  · right; rfl
  · left; rfl

theorem claim9_witness :
    isPow2 4096 = true ∧ (4096 : Nat) ≤ isize_max - (4096 - 1) ∧
    (buffer_new 4096 4096 false = BufferNewResult.err ENOMEM ∨
      buffer_new 4096 4096 false = BufferNewResult.ok 4096 4096) :=
  ⟨by decide, by decide,
   claim9_buffer_new_valid_layout 4096 4096 false (by decide) (by decide)⟩

/-- C2: the supported MSR list starts with the 42 common indices in
their fixed order and appends, in this fixed order, the 8 CET shadow
stack indices iff cet_ss_support, TSC AUX iff rdtscp_support, the
supervisor XSS index iff xsave_supervisor_support, the SynIC block iff
access_synic_regs, the reference TSC index iff
access_partition_reference_tsc, and the guest OS id index iff
access_hypercall_regs; identical features yield identical lists and the
common block is never reordered. -/
theorem claim2_msr_set_structure (features : VpFeatures) :
    get_partition_supported_msrs features =
      MSRS_COMMON ++
        ((if features.cet_ss_support then MSRS_CET_SS else []) ++
          ((if features.rdtscp_support then [IA32_MSR_TSC_AUX] else []) ++
            ((if features.xsave_supervisor_support then [MSR_IA32_REGISTER_U_XSS] else []) ++
              ((if features.access_synic_regs then MSRS_SYNIC else []) ++
                ((if features.access_partition_reference_tsc
                    then [HV_X64_MSR_REFERENCE_TSC] else []) ++
                  (if features.access_hypercall_regs
                    then [HV_X64_MSR_GUEST_OS_ID] else [])))))) ∧
    MSRS_COMMON.length = 42 ∧ MSRS_CET_SS.length = 8 ∧
    (get_partition_supported_msrs features).take 42 = MSRS_COMMON ∧
    ∀ g : VpFeatures, g = features →
      get_partition_supported_msrs g = get_partition_supported_msrs features := by
  have hmain : get_partition_supported_msrs features =
      MSRS_COMMON ++
        ((if features.cet_ss_support then MSRS_CET_SS else []) ++
          ((if features.rdtscp_support then [IA32_MSR_TSC_AUX] else []) ++
            ((if features.xsave_supervisor_support then [MSR_IA32_REGISTER_U_XSS] else []) ++
              ((if features.access_synic_regs then MSRS_SYNIC else []) ++
                ((if features.access_partition_reference_tsc
                    then [HV_X64_MSR_REFERENCE_TSC] else []) ++
                  (if features.access_hypercall_regs
                    then [HV_X64_MSR_GUEST_OS_ID] else [])))))) := by
    unfold get_partition_supported_msrs
    split_ifs <;> simp [List.append_assoc]
  refine ⟨hmain, by decide, by decide, ?_, fun g hg => by rw [hg]⟩
  rw [hmain]
  exact List.take_left' (by decide)

theorem claim2_witness :
    (get_partition_supported_msrs ⟨true, false, false, false, false, false⟩).take 42
      = MSRS_COMMON ∧
    get_partition_supported_msrs ⟨true, false, false, false, false, false⟩ =
      MSRS_COMMON ++
        ((if (⟨true, false, false, false, false, false⟩ : VpFeatures).cet_ss_support
            then MSRS_CET_SS else []) ++
          ((if (⟨true, false, false, false, false, false⟩ : VpFeatures).rdtscp_support
              then [IA32_MSR_TSC_AUX] else []) ++
            ((if (⟨true, false, false, false, false, false⟩ : VpFeatures).xsave_supervisor_support
                then [MSR_IA32_REGISTER_U_XSS] else []) ++
              ((if (⟨true, false, false, false, false, false⟩ : VpFeatures).access_synic_regs
                  then MSRS_SYNIC else []) ++
                ((if (⟨true, false, false, false, false, false⟩ :
                      VpFeatures).access_partition_reference_tsc
                    then [HV_X64_MSR_REFERENCE_TSC] else []) ++
                  (if (⟨true, false, false, false, false, false⟩ :
                      VpFeatures).access_hypercall_regs
                    then [HV_X64_MSR_GUEST_OS_ID] else [])))))) ∧
    get_partition_supported_msrs ⟨true, false, false, false, false, false⟩ =
      get_partition_supported_msrs ⟨true, false, false, false, false, false⟩ :=
  ⟨(claim2_msr_set_structure ⟨true, false, false, false, false, false⟩).2.2.2.1,
   (claim2_msr_set_structure ⟨true, false, false, false, false, false⟩).1,
   (claim2_msr_set_structure ⟨true, false, false, false, false, false⟩).2.2.2.2 _ rfl⟩

/-- Closed form of the packed attribute word built by the eight bitfield
setters of the segment register pack conversion. -/
theorem from_seg_attributes (x : SegmentRegister) :
    (hv_x64_segment_register.from_seg x).attributes =
      x.type_ % 16 + 16 * (x.s % 2) + 32 * (x.dpl % 4) + 128 * (x.present % 2)
        + 4096 * (x.avl % 2) + 8192 * (x.l % 2) + 16384 * (x.db % 2)
        + 32768 * (x.g % 2) := by
  have e1 : setBits 0 0 4 x.type_ = x.type_ % 16 := by simp [setBits]
  have e2 : setBits (x.type_ % 16) 7 1 x.present =
      x.type_ % 16 + 128 * (x.present % 2) := by
    simp [setBits]; omega
  have e3 : setBits (x.type_ % 16 + 128 * (x.present % 2)) 5 2 x.dpl =
      x.type_ % 16 + 32 * (x.dpl % 4) + 128 * (x.present % 2) := by
    simp [setBits]; omega
  have e4 : setBits (x.type_ % 16 + 32 * (x.dpl % 4) + 128 * (x.present % 2))
        14 1 x.db =
      x.type_ % 16 + 32 * (x.dpl % 4) + 128 * (x.present % 2)
        + 16384 * (x.db % 2) := by
    simp [setBits]; omega
  have e5 : setBits (x.type_ % 16 + 32 * (x.dpl % 4) + 128 * (x.present % 2)
        + 16384 * (x.db % 2)) 4 1 x.s =
      x.type_ % 16 + 16 * (x.s % 2) + 32 * (x.dpl % 4) + 128 * (x.present % 2)
        + 16384 * (x.db % 2) := by
    simp [setBits]; omega
  have e6 : setBits (x.type_ % 16 + 16 * (x.s % 2) + 32 * (x.dpl % 4)
        + 128 * (x.present % 2) + 16384 * (x.db % 2)) 13 1 x.l =
      x.type_ % 16 + 16 * (x.s % 2) + 32 * (x.dpl % 4) + 128 * (x.present % 2)
        + 8192 * (x.l % 2) + 16384 * (x.db % 2) := by
    simp [setBits]; omega
  have e7 : setBits (x.type_ % 16 + 16 * (x.s % 2) + 32 * (x.dpl % 4)
        + 128 * (x.present % 2) + 8192 * (x.l % 2) + 16384 * (x.db % 2))
        15 1 x.g =
      x.type_ % 16 + 16 * (x.s % 2) + 32 * (x.dpl % 4) + 128 * (x.present % 2)
        + 8192 * (x.l % 2) + 16384 * (x.db % 2) + 32768 * (x.g % 2) := by
    simp [setBits]; omega
  have e8 : setBits (x.type_ % 16 + 16 * (x.s % 2) + 32 * (x.dpl % 4)
        + 128 * (x.present % 2) + 8192 * (x.l % 2) + 16384 * (x.db % 2)
        + 32768 * (x.g % 2)) 12 1 x.avl =
      x.type_ % 16 + 16 * (x.s % 2) + 32 * (x.dpl % 4) + 128 * (x.present % 2)
        + 4096 * (x.avl % 2) + 8192 * (x.l % 2) + 16384 * (x.db % 2)
        + 32768 * (x.g % 2) := by
    simp [setBits]; omega
  simp only [hv_x64_segment_register.from_seg]
  rw [e1, e2, e3, e4, e5, e6, e7, e8]

/-- C3: packing a SegmentRegister whose unusable and padding fields are
zero and whose attributes fit their hardware widths and unpacking again
reproduces every field, and unpacking a packed register whose reserved
attribute bits are zero and repacking reproduces it bit for bit. -/
theorem claim3_segment_roundtrip :
    (∀ x : SegmentRegister, x.unusable = 0 → x.padding = 0 → x.type_ < 16 →
      x.present < 2 → x.dpl < 4 → x.db < 2 → x.s < 2 → x.l < 2 → x.g < 2 →
      x.avl < 2 →
      SegmentRegister.from_hv (hv_x64_segment_register.from_seg x) = x) ∧
    (∀ y : hv_x64_segment_register, y.attributes < 65536 →
      attr_reserved y.attributes = 0 →
      hv_x64_segment_register.from_seg (SegmentRegister.from_hv y) = y) := by
  constructor
  · intro x hu hp ht hpr hd hdb hs hl hg ha
    refine SegmentRegister.ext rfl rfl rfl ?_ ?_ ?_ ?_ ?_ ?_ ?_ ?_ ?_ ?_ <;>
      simp only [SegmentRegister.from_hv, from_seg_attributes,
        attr_segment_type, attr_present, attr_descriptor_privilege_level,
        attr_default, attr_non_system_segment, attr_long, attr_granularity,
        attr_available] <;>
      omega
  · intro y hlt hres
    unfold attr_reserved at hres
    refine hv_x64_segment_register.ext ?_ ?_ ?_ ?_
    · rfl
    · rfl
    · rfl
    · rw [from_seg_attributes]
      simp only [SegmentRegister.from_hv, attr_segment_type, attr_present,
        attr_descriptor_privilege_level, attr_default, attr_non_system_segment,
        attr_long, attr_granularity, attr_available]
      omega

theorem claim3_witness :
    (segExample.unusable = 0 ∧ segExample.padding = 0 ∧ segExample.type_ < 16 ∧
      segExample.present < 2 ∧ segExample.dpl < 4 ∧ segExample.db < 2 ∧
      segExample.s < 2 ∧ segExample.l < 2 ∧ segExample.g < 2 ∧
      segExample.avl < 2 ∧
      SegmentRegister.from_hv (hv_x64_segment_register.from_seg segExample)
        = segExample) ∧
    (hvSegExample.attributes < 65536 ∧ attr_reserved hvSegExample.attributes = 0 ∧
      hv_x64_segment_register.from_seg (SegmentRegister.from_hv hvSegExample)
        = hvSegExample) :=
  ⟨⟨by decide, by decide, by decide, by decide, by decide, by decide, by decide,
    by decide, by decide, by decide,
    claim3_segment_roundtrip.1 segExample (by decide) (by decide) (by decide)
      (by decide) (by decide) (by decide) (by decide) (by decide) (by decide)
      (by decide)⟩,
   ⟨by decide, by decide,
    claim3_segment_roundtrip.2 hvSegExample (by decide) (by decide)⟩⟩

/-- C10: with an external buffer at least as large as the component,
copying from the buffer modifies only the bytes of that component slice
of the internal state, filling them from the front of the buffer, and
copying to the buffer leaves the internal state untouched and writes
exactly the component bytes to the front of the buffer, the rest of the
buffer keeping its old bytes. -/
theorem claim10_copy_frame (states : AllVpStateComponents) (index : Nat)
    (buffer : ByteBuffer)
    (hidx : index < MSHV_VP_STATE_COUNT)
    (hsz : VP_STATE_COMP_SIZES.getD index 0 ≤ buffer.size) :
    (∃ st : AllVpStateComponents,
      states.copy_to_or_from_buffer index buffer false = some (st, buffer) ∧
      (∀ j, j < get_vp_state_comp_start_offset index ∨
            get_vp_state_comp_start_offset index + VP_STATE_COMP_SIZES.getD index 0 ≤ j →
        st.buffer j = states.buffer j) ∧
      (∀ j, get_vp_state_comp_start_offset index ≤ j ∧
            j < get_vp_state_comp_start_offset index + VP_STATE_COMP_SIZES.getD index 0 →
        st.buffer j = buffer.data (j - get_vp_state_comp_start_offset index))) ∧
    (∃ b : ByteBuffer,
      states.copy_to_or_from_buffer index buffer true = some (states, b) ∧
      b.size = buffer.size ∧
      (∀ i, i < VP_STATE_COMP_SIZES.getD index 0 →
        b.data i = states.buffer (get_vp_state_comp_start_offset index + i)) ∧
      (∀ i, VP_STATE_COMP_SIZES.getD index 0 ≤ i → b.data i = buffer.data i)) := by
  constructor
  · refine ⟨⟨fun j => if get_vp_state_comp_start_offset index ≤ j ∧
        j < get_vp_state_comp_start_offset index + VP_STATE_COMP_SIZES.getD index 0
        then buffer.data (j - get_vp_state_comp_start_offset index)
        else states.buffer j⟩, ?_, ?_, ?_⟩
    · unfold AllVpStateComponents.copy_to_or_from_buffer
      rw [if_neg (by omega)]
      rfl
    · intro j hj
      dsimp only
      rw [if_neg (by omega)]
    · intro j hj
      dsimp only
      rw [if_pos (by omega)]
  · refine ⟨⟨buffer.size, fun i => if i < VP_STATE_COMP_SIZES.getD index 0
        then states.buffer (get_vp_state_comp_start_offset index + i)
        else buffer.data i⟩, ?_, rfl, ?_, ?_⟩
    · unfold AllVpStateComponents.copy_to_or_from_buffer
      rw [if_neg (by omega)]
      rfl
    · intro i hi
      dsimp only
      rw [if_pos hi]
    · intro i hi
      dsimp only
      rw [if_neg (by omega)]

theorem claim10_witness :
    0 < MSHV_VP_STATE_COUNT ∧
    VP_STATE_COMP_SIZES.getD 0 0 ≤ (⟨4096, fun _ => 0⟩ : ByteBuffer).size ∧
    ((∃ st : AllVpStateComponents,
      AllVpStateComponents.copy_to_or_from_buffer ⟨fun _ => 0⟩ 0 ⟨4096, fun _ => 0⟩ false
        = some (st, ⟨4096, fun _ => 0⟩) ∧
      (∀ j, j < get_vp_state_comp_start_offset 0 ∨
            get_vp_state_comp_start_offset 0 + VP_STATE_COMP_SIZES.getD 0 0 ≤ j →
        st.buffer j = (⟨fun _ => 0⟩ : AllVpStateComponents).buffer j) ∧
      (∀ j, get_vp_state_comp_start_offset 0 ≤ j ∧
            j < get_vp_state_comp_start_offset 0 + VP_STATE_COMP_SIZES.getD 0 0 →
        st.buffer j = (⟨4096, fun _ => 0⟩ : ByteBuffer).data
          (j - get_vp_state_comp_start_offset 0))) ∧
    (∃ b : ByteBuffer,
      AllVpStateComponents.copy_to_or_from_buffer ⟨fun _ => 0⟩ 0 ⟨4096, fun _ => 0⟩ true
        = some (⟨fun _ => 0⟩, b) ∧
      b.size = (⟨4096, fun _ => 0⟩ : ByteBuffer).size ∧
      (∀ i, i < VP_STATE_COMP_SIZES.getD 0 0 →
        b.data i = (⟨fun _ => 0⟩ : AllVpStateComponents).buffer
          (get_vp_state_comp_start_offset 0 + i)) ∧
      (∀ i, VP_STATE_COMP_SIZES.getD 0 0 ≤ i →
        b.data i = (⟨4096, fun _ => 0⟩ : ByteBuffer).data i))) :=
  ⟨by decide, by decide,
   claim10_copy_frame ⟨fun _ => 0⟩ 0 ⟨4096, fun _ => 0⟩ (by decide) (by decide)⟩

set_option maxHeartbeats 1000000 in
/-- C1: decoding a sufficiently large buffer into a LapicState writes
the processor priority register at offset 0xA0 with the value obtained
by scanning the ISR array from index 7 down to 0: for the first nonzero
element v at index i the value is 31 minus the leading zero count of v
plus i times 32, and 0 when all eight elements are zero. -/
theorem claim1_lapic_ppr_derivation (r : HvLICS) (n : Nat)
    (hn : hv_lics_byte_size ≤ n)
    (hisr : ∀ i, r.apic_isr i < 4294967296) :
    ∃ s : LapicState, lapic_try_from_buffer ⟨n, r⟩ = Except.ok s ∧
      readU32 s.regs LOCAL_APIC_OFFSET_PPR = pprSpec r.apic_isr := by
  refine ⟨⟨lapic_decode_regs r⟩, ?_, ?_⟩
  · unfold lapic_try_from_buffer
    rw [if_neg (Nat.not_lt.mpr hn)]
  · show readU32 (lapic_decode_regs r) LOCAL_APIC_OFFSET_PPR = pprSpec r.apic_isr
    have hb : lapicIsrv r.apic_isr ≤ 255 := isrvLoop_le r.apic_isr descending8
    simp only [lapic_decode_regs]
    rw [readU32_writeU32_eq, Nat.mod_eq_of_lt (by omega), lapicIsrv_eq_pprSpec]

theorem claim1_witness :
    hv_lics_byte_size ≤ 1024 ∧ (∀ i, hvIsrExample.apic_isr i < 4294967296) ∧
    pprSpec hvIsrExample.apic_isr = 226 ∧
    ∃ s : LapicState, lapic_try_from_buffer ⟨1024, hvIsrExample⟩ = Except.ok s ∧
      readU32 s.regs LOCAL_APIC_OFFSET_PPR = 226 := by
  refine ⟨by decide, by decide, by decide, ?_⟩
  obtain ⟨s, hs, hp⟩ :=
    claim1_lapic_ppr_derivation hvIsrExample 1024 (by decide) (by decide)
  exact ⟨s, hs, by rw [hp]; decide⟩

set_option maxHeartbeats 3000000 in
/-- C4: decoding a well formed hypervisor LAPIC record from a
sufficiently large buffer and re-encoding the resulting register file
reproduces every record field the register file carries, with
apic_error_status and apic_lvt_cmci reset to zero. -/
theorem claim4_lapic_roundtrip (r : HvLICS) (n : Nat)
    (hn : hv_lics_byte_size ≤ n) (hwf : r.wf) :
    ∃ s : LapicState, lapic_try_from_buffer ⟨n, r⟩ = Except.ok s ∧
      lapic_to_hv_record s =
        { r with apic_error_status := 0, apic_lvt_cmci := 0 } := by
  obtain ⟨h01, h02, h03, h04, h05, hisr, htmr, hirr, h06, h07, h08, h09, h10,
    h11, h12, h13, h14, h15, h16, h17, h18⟩ := hwf
  refine ⟨⟨lapic_decode_regs r⟩, ?_, ?_⟩
  · unfold lapic_try_from_buffer
    rw [if_neg (Nat.not_lt.mpr hn)]
  · refine HvLICS.ext ?_ ?_ ?_ ?_ ?_ ?_ ?_ ?_ ?_ ?_ ?_ ?_ ?_ ?_ ?_ ?_ ?_ ?_
      ?_ ?_ ?_ ?_ ?_
    · simp [lapic_to_hv_record, lapic_decode_regs, readU32_writeU32_ne,
        readU32_writeU32_eq]
      omega
    · simp [lapic_to_hv_record, lapic_decode_regs, readU32_writeU32_ne,
        readU32_writeU32_eq]
      omega
    · simp [lapic_to_hv_record, lapic_decode_regs, readU32_writeU32_ne,
        readU32_writeU32_eq]
      omega
    · simp [lapic_to_hv_record, lapic_decode_regs, readU32_writeU32_ne,
        readU32_writeU32_eq]
      omega
    · simp [lapic_to_hv_record, lapic_decode_regs, readU32_writeU32_ne,
        readU32_writeU32_eq]
      omega
    · funext i
      fin_cases i <;>
        simp [lapic_to_hv_record, lapic_decode_regs, readU32_writeU32_ne,
          readU32_writeU32_eq, fin8_val_0, fin8_val_1, fin8_val_2, fin8_val_3,
          fin8_val_4, fin8_val_5, fin8_val_6, fin8_val_7] <;>
        exact hisr _
    · funext i
      fin_cases i <;>
        simp [lapic_to_hv_record, lapic_decode_regs, readU32_writeU32_ne,
          readU32_writeU32_eq, fin8_val_0, fin8_val_1, fin8_val_2, fin8_val_3,
          fin8_val_4, fin8_val_5, fin8_val_6, fin8_val_7] <;>
        exact htmr _
    · funext i
      fin_cases i <;>
        simp [lapic_to_hv_record, lapic_decode_regs, readU32_writeU32_ne,
          readU32_writeU32_eq, fin8_val_0, fin8_val_1, fin8_val_2, fin8_val_3,
          fin8_val_4, fin8_val_5, fin8_val_6, fin8_val_7] <;>
        exact hirr _
    · simp [lapic_to_hv_record, lapic_decode_regs, readU32_writeU32_ne,
        readU32_writeU32_eq]
      omega
    · simp [lapic_to_hv_record, lapic_decode_regs, readU32_writeU32_ne,
        readU32_writeU32_eq]
      omega
    · simp [lapic_to_hv_record, lapic_decode_regs, readU32_writeU32_ne,
        readU32_writeU32_eq]
      omega
    · simp [lapic_to_hv_record, lapic_decode_regs, readU32_writeU32_ne,
        readU32_writeU32_eq]
      omega
    · simp [lapic_to_hv_record, lapic_decode_regs, readU32_writeU32_ne,
        readU32_writeU32_eq]
      omega
    · simp [lapic_to_hv_record, lapic_decode_regs, readU32_writeU32_ne,
        readU32_writeU32_eq]
      omega
    · simp [lapic_to_hv_record, lapic_decode_regs, readU32_writeU32_ne,
        readU32_writeU32_eq]
      omega
    · simp [lapic_to_hv_record, lapic_decode_regs, readU32_writeU32_ne,
        readU32_writeU32_eq]
      omega
    · simp [lapic_to_hv_record, lapic_decode_regs, readU32_writeU32_ne,
        readU32_writeU32_eq]
      omega
    · rfl
    · rfl
    · simp [lapic_to_hv_record, lapic_decode_regs, readU32_writeU32_ne,
        readU32_writeU32_eq]
      omega
    · simp [lapic_to_hv_record, lapic_decode_regs, readU32_writeU32_ne,
        readU32_writeU32_eq]
      omega
    · simp [lapic_to_hv_record, lapic_decode_regs, readU32_writeU32_ne,
        readU32_writeU32_eq]
      omega
    · simp [lapic_to_hv_record, lapic_decode_regs, readU32_writeU32_ne,
        readU32_writeU32_eq]
      omega

theorem claim4_witness :
    hv_lics_byte_size ≤ 1024 ∧ HvLICS.wf hvZero ∧
    ∃ s : LapicState, lapic_try_from_buffer ⟨1024, hvZero⟩ = Except.ok s ∧
      lapic_to_hv_record s =
        { hvZero with apic_error_status := 0, apic_lvt_cmci := 0 } :=
  ⟨by decide, by decide, claim4_lapic_roundtrip hvZero 1024 (by decide) (by decide)⟩

end Mshv
